import Mathlib

/-!
Formal model of the `studio-agents` repository: the LangGraph workflow engine in
`langgraph_agent_system.py` and the FastAPI websocket bridge in
`web_interface/main.py`.

The external text-completion service is modelled as an oracle: each node
function takes the string it would have received from `LLMManager.call_gpt4o`
as an explicit parameter.  The gateway itself (`call_gpt4o`) is modelled over
an `Except String String` describing the outcome of the external network call
(`.ok content` for a reply, `.error e` for a raised exception with text `e`).
Python string operations are modelled over the character list of the string
(`pyStrip` for `str.strip()`, `pyUpper`/`pyLower` for `str.upper()`/
`str.lower()`, `pyTake`/`pyDrop` for slicing, `pyReplace` for `str.replace`,
`strContains` for the `in` substring test and `strStartsWith` for
`str.startswith`).
-/

/-- Python `s.strip()`: remove leading and trailing whitespace. -/
def pyStrip (s : String) : String :=
  ⟨((s.data.dropWhile Char.isWhitespace).reverse.dropWhile Char.isWhitespace).reverse⟩

/-- Python `s.upper()`. -/
def pyUpper (s : String) : String :=
  ⟨s.data.map Char.toUpper⟩

/-- Python `s.lower()`. -/
def pyLower (s : String) : String :=
  ⟨s.data.map Char.toLower⟩

/-- Python slicing `s[:n]`. -/
def pyTake (s : String) (n : Nat) : String :=
  ⟨s.data.take n⟩

/-- Python slicing `s[n:]`. -/
def pyDrop (s : String) (n : Nat) : String :=
  ⟨s.data.drop n⟩

/-- Substring test over character lists: `containsSub needle hay` is true iff
`needle` occurs contiguously inside `hay`. -/
def containsSub (needle : List Char) : List Char → Bool
  | [] => needle.isEmpty
  | c :: rest => needle.isPrefixOf (c :: rest) || containsSub needle rest

/-- Python's `needle in hay` substring test. -/
def strContains (hay needle : String) : Bool :=
  containsSub needle.data hay.data

/-- Python's `s.startswith(p)`. -/
def strStartsWith (s p : String) : Bool :=
  p.data.isPrefixOf s.data

/-- The `RouteType` enumeration from `langgraph_agent_system.py` (lines 88-92). -/
inductive RouteType where
  | clarify
  | code
  | answer
deriving DecidableEq, Repr

/-- The `.value` attribute of each `RouteType` member. -/
def RouteType.value : RouteType → String
  | .clarify => "clarify"
  | .code => "code"
  | .answer => "answer"

/-- The `AgentState` TypedDict (lines 95-120).  Conversation turns are
(role, message) pairs. -/
structure AgentState where
  user_input : String
  conversation_history : List (String × String)
  clarified : Bool
  clarification_questions : List String
  clarification_responses : List String
  route : Option RouteType
  refined_prompt : String
  final_result : String
  error_message : String
  processing_steps : List String
deriving DecidableEq, Repr

/-- Function `create_agent_state` (lines 123-136). -/
def create_agent_state (user_input : String) : AgentState :=
  { user_input := user_input
    conversation_history := []
    clarified := false
    clarification_questions := []
    clarification_responses := []
    route := none
    refined_prompt := ""
    final_result := ""
    error_message := ""
    processing_steps := [] }

/-- Function `add_conversation` (lines 139-141): append a turn to the history. -/
def add_conversation (state : AgentState) (role message : String) : AgentState :=
  { state with conversation_history := state.conversation_history ++ [(role, message)] }

/-- Function `add_step` (lines 144-146): append a progress step. -/
def add_step (state : AgentState) (step : String) : AgentState :=
  { state with processing_steps := state.processing_steps ++ [step] }

/-- The `LLMManager.call_gpt4o` body inside the `try` (lines 188-225): the external
call either yields a reply, which is `.strip()`ped and returned, or raises. -/
def call_gpt4o_attempt (external : Except String String) : Except String String := do
  let content ← external
  pure (pyStrip content)

/-- Function `LLMManager.call_gpt4o` (lines 176-236): the `except Exception` handler
turns any raised exception into the textual message
`"Error calling GPT-4o: " ++ e` which is returned as the result string, so the
function is total (it never propagates the exception). -/
def call_gpt4o (external : Except String String) : String :=
  match call_gpt4o_attempt external with
  | .ok result => result
  | .error e => "Error calling GPT-4o: " ++ e

/-- Node `clarify_loop` (lines 244-469).  Oracle parameters: `analysis_reply` is
the first `call_gpt4o` result, `user_response_raw` the text typed by the user
at the `input()` prompt (the testing-mode constant in TESTING_MODE), and
`follow_up_reply` the second `call_gpt4o` result; the latter two are only
consumed on the branches that reach them. -/
def clarify_loop (analysis_reply user_response_raw follow_up_reply : String)
    (state : AgentState) : AgentState :=
  let state := add_step state "Starting clarification process"
  let response := analysis_reply
  let state := add_step state ("Clarification analysis: " ++ pyTake response 100 ++ "...")
  if strStartsWith response "CLARIFIED:" then
    -- lines 331-344: clarification complete
    let state := { state with clarified := true, refined_prompt := pyStrip (pyDrop response 10) }
    add_step state "Clarification completed"
  else if strStartsWith response "QUESTION:" then
    -- lines 346-453: ask the user directly
    let question := pyStrip (pyDrop response 9)
    let state := { state with
      clarification_questions := state.clarification_questions ++ [question] }
    let state := add_conversation state "assistant" question
    let state := add_step state ("Asked clarification question: " ++ question)
    let user_response := pyStrip user_response_raw
    if user_response ≠ "" then
      let state := { state with
        clarification_responses := state.clarification_responses ++ [user_response] }
      let state := add_conversation state "user" user_response
      let state := add_step state ("Received clarification response: " ++ user_response)
      -- line 386: update the user input with the clarified information
      let state := { state with user_input := state.user_input ++ " - " ++ user_response }
      let follow_up_response := follow_up_reply
      if strStartsWith follow_up_response "CLARIFIED:" then
        let state := { state with
          clarified := true, refined_prompt := pyStrip (pyDrop follow_up_response 10) }
        add_step state "Clarification completed after user response"
      else
        -- lines 434-447: limit to prevent infinite loops
        if state.clarification_questions.length ≥ 2 then
          let state := { state with
            clarified := true,
            refined_prompt := state.user_input ++ " - " ++ user_response }
          add_step state "Maximum clarification rounds reached - proceeding"
        else
          state
    else
      -- lines 448-453: no response, use original input
      let state := { state with clarified := true, refined_prompt := state.user_input }
      add_step state "No clarification response - proceeding with original"
  else
    -- lines 455-467: fallback - assume clarified
    let state := { state with clarified := true, refined_prompt := state.user_input }
    add_step state "Clarification fallback - proceeding with original input"

/-- Node `route_prompt` (lines 477-585).  `reply` is the raw `call_gpt4o` result;
the source applies `.strip().upper()` and then tests substring membership of
the three category names in priority order, defaulting to CLARIFY. -/
def route_prompt (reply : String) (state : AgentState) : AgentState :=
  let state := add_step state "Starting prompt routing analysis"
  let response := pyUpper (pyStrip reply)
  let state := add_step state ("Routing analysis result: " ++ response)
  let state :=
    if strContains response "CLARIFY" then
      { state with route := some RouteType.clarify }
    else if strContains response "CODE" then
      { state with route := some RouteType.code }
    else if strContains response "ANSWER" then
      { state with route := some RouteType.answer }
    else
      -- lines 569-574: fallback to CLARIFY if unclear
      let state := { state with route := some RouteType.clarify }
      add_step state "Routing fallback - defaulting to CLARIFY"
  add_step state
    ("Route decision: " ++ (match state.route with | some r => r.value | none => ""))

/-- Node `refine_prompt` (lines 593-670): the reply becomes `refined_prompt`
(stripped). -/
def refine_prompt (reply : String) (state : AgentState) : AgentState :=
  let state := add_step state "Starting prompt refinement"
  let state := { state with refined_prompt := pyStrip reply }
  add_step state "Prompt refinement completed"

/-- Leading fixed text of the `placeholder_result` f-string in
`run_claude_code` (lines 724-769). -/
def placeholder_intro : String :=
  "\n    PLACEHOLDER CLAUDE CODE EXECUTION\n    \n    Refined Prompt:\n    "

/-- Trailing fixed text of the `placeholder_result` f-string, as rendered
(the inner interpolations \x7b\x27result.stderr\x27\x7d and
\x7b\x27str(e)\x27\x7d evaluate to the literal texts `result.stderr` and
`str(e)`). -/
def placeholder_outro : String :=
  "\n    \n    This would normally execute the Claude Code CLI with the above prompt\n    and return the generated code, file changes, or execution results.\n    \n    Expected implementation:\n    \x60\x60\x60python\n    import tempfile\n    import subprocess\n    import json\n    \n    # Write prompt to temporary file\n    with tempfile.NamedTemporaryFile(mode=\x27w\x27, suffix=\x27.txt\x27, delete=False) as f:\n        f.write(state.refined_prompt)\n        prompt_file = f.name\n    \n    try:\n        # Execute Claude Code CLI\n        result = subprocess.run([\n            \"claude\", \"code\", \n            \"--prompt-file\", prompt_file,\n            \"--output-format\", \"json\"\n        ], capture_output=True, text=True, timeout=300)\n        \n        if result.returncode == 0:\n            # Parse JSON result\n            claude_output = json.loads(result.stdout)\n            state.final_result = claude_output.get(\"result\", \"\")\n        else:\n            state.error_message = f\"Claude Code error: result.stderr\"\n            \n    except subprocess.TimeoutExpired:\n        state.error_message = \"Claude Code execution timed out\"\n    except json.JSONDecodeError:\n        state.error_message = \"Failed to parse Claude Code output\"\n    except Exception as e:\n        state.error_message = f\"Unexpected error: str(e)\"\n    finally:\n        # Cleanup\n        os.unlink(prompt_file)\n    \x60\x60\x60\n    "

/-- The rendered `placeholder_result` f-string with the refined prompt
interpolated. -/
def placeholder_result (refined : String) : String :=
  placeholder_intro ++ refined ++ placeholder_outro

/-- Node `run_claude_code` (lines 678-780): stores the placeholder text in
`final_result`. -/
def run_claude_code (state : AgentState) : AgentState :=
  let state := add_step state "Starting Claude Code execution (PLACEHOLDER)"
  let state := { state with final_result := placeholder_result state.refined_prompt }
  add_step state "Claude Code execution completed (placeholder)"

/-- Node `answer_with_llm` (lines 788-854): the reply, stripped, becomes
`final_result`. -/
def answer_with_llm (reply : String) (state : AgentState) : AgentState :=
  let state := add_step state "Starting direct LLM answer generation"
  let state := { state with final_result := pyStrip reply }
  add_step state "Direct answer generation completed"

/-- One pass of the graph's clarification loop needs up to two completion
calls and one user turn; this record carries that round's oracle data. -/
structure ClarifyRound where
  analysis : String
  response : String
  follow_up : String
deriving DecidableEq, Repr

/-- The graph's conditional edge loops `clarify_loop` while `clarified` is
false (lines 958-965).  Two rounds always suffice for a request that starts
with no clarification questions: a round that leaves `clarified` false must
have appended a question, and once two questions have been asked every branch
of `clarify_loop` forces `clarified` to true (proved below in
`clarify_loop_stuck_shape` / `run_clarify_phase_clarified`). -/
def run_clarify_phase (r1 r2 : ClarifyRound) (state : AgentState) : AgentState :=
  let s1 := clarify_loop r1.analysis r1.response r1.follow_up state
  if s1.clarified then s1
  else clarify_loop r2.analysis r2.response r2.follow_up s1

/-- All completion-service replies (and user turns) one request can consume. -/
structure Oracle where
  route_reply : String
  round1 : ClarifyRound
  round2 : ClarifyRound
  refine_reply : String
  answer_reply : String
deriving DecidableEq, Repr

/-- The state `process_request` builds before invoking the graph (lines
1022-1025): a fresh `AgentState` whose history is the session's persistent
conversation memory, with the user turn and the initial step appended. -/
def initial_request_state (user_input : String)
    (memory : List (String × String)) : AgentState :=
  let state := { create_agent_state user_input with conversation_history := memory }
  let state := add_conversation state "user" user_input
  add_step state "Request received and processing started"

/-- One full graph execution as wired in `build_agent_graph` (lines 917-978)
starting from `initial_request_state`:
entry node `route_prompt`; conditional edges send route `answer` to
`answer_with_llm`, route `code` to `refine_prompt`, and route `clarify` (or an
unset route) to `clarify_loop`, which repeats until `clarified`; then
`refine_prompt → run_claude_code → END` and `answer_with_llm → END`. -/
def run_engine (o : Oracle) (user_input : String)
    (memory : List (String × String)) : AgentState :=
  let state := route_prompt o.route_reply (initial_request_state user_input memory)
  match state.route with
  | some RouteType.answer => answer_with_llm o.answer_reply state
  | some RouteType.code => run_claude_code (refine_prompt o.refine_reply state)
  | _ =>
    run_claude_code (refine_prompt o.refine_reply (run_clarify_phase o.round1 o.round2 state))

/-- The dictionary returned by `LangGraphAgentSystem.process_request`: the
`ok` case is the success dictionary of lines 1103-1112 and the `err` case is
the exception dictionary of lines 1120-1126 (whose only keys are `success`,
`error`, `final_result`, `route_taken` and `processing_steps`). -/
inductive ProcessResult where
  | ok (final_result : String) (route_taken : String) (clarified : Bool)
      (refined_prompt : String) (processing_steps : List String)
      (conversation_history : List (String × String)) (error_message : String)
  | err (error : String) (final_result : String) (route_taken : String)
      (processing_steps : List String)
deriving DecidableEq, Repr

/-- The `success` entry of the result dictionary. -/
def ProcessResult.success : ProcessResult → Bool
  | .ok .. => true
  | .err .. => false

/-- The `final_result` entry of the result dictionary. -/
def ProcessResult.final_result : ProcessResult → String
  | .ok fr _ _ _ _ _ _ => fr
  | .err _ fr _ _ => fr

/-- The `route_taken` entry of the result dictionary. -/
def ProcessResult.route_taken : ProcessResult → String
  | .ok _ rt _ _ _ _ _ => rt
  | .err _ _ rt _ => rt

/-- Lookup `result.get("error_message", "")`: the exception dictionary has no
`error_message` key, so the lookup default `""` is returned there. -/
def ProcessResult.error_message : ProcessResult → String
  | .ok _ _ _ _ _ _ em => em
  | .err .. => ""

/-- The `error` entry; absent (`none`) from the success dictionary. -/
def ProcessResult.error : ProcessResult → Option String
  | .ok .. => none
  | .err e _ _ _ => some e

/-- The `processing_steps` entry of the result dictionary. -/
def ProcessResult.processing_steps : ProcessResult → List String
  | .ok _ _ _ _ ps _ _ => ps
  | .err _ _ _ ps => ps

/-- Method `LangGraphAgentSystem.process_request` (lines 1008-1126).  `exception` is
`some e` when graph execution raises an exception whose text is `e` (the
`except Exception` branch, lines 1117-1126); otherwise the success dictionary
is assembled from the final graph state. -/
def process_request (exception : Option String) (o : Oracle) (user_input : String)
    (memory : List (String × String)) : ProcessResult :=
  match exception with
  | some e => .err e "" "error" ["Error occurred during processing"]
  | none =>
    let fs := run_engine o user_input memory
    .ok fs.final_result
      (match fs.route with | some r => r.value | none => "unknown")
      fs.clarified fs.refined_prompt fs.processing_steps fs.conversation_history
      fs.error_message

/-- The two dictionaries owned by `SessionManager` in `web_interface/main.py`
(lines 39-42), modelled as insertion-ordered association lists keyed by
session id; `A` is the per-session data and `C` the websocket handle. -/
structure SessionManagerState (A C : Type) where
  sessions : List (String × A)
  active_connections : List (String × C)
deriving DecidableEq, Repr

/-- Method `SessionManager.remove_session` (lines 57-59): `dict.pop(session_id,
None)` on both maps, i.e. drop the entry with that key (if any) and keep the
rest in order. -/
def remove_session {A C : Type} (m : SessionManagerState A C)
    (session_id : String) : SessionManagerState A C :=
  { sessions := m.sessions.filter (fun p => p.1 != session_id)
    active_connections := m.active_connections.filter (fun p => p.1 != session_id) }

/-- Replace every non-overlapping occurrence of `needle` (scanned left to
right) by `repl`, on character lists; an empty needle replaces nothing. -/
def replaceSub (needle repl : List Char) : List Char → List Char
  | [] => []
  | c :: rest =>
    if !needle.isEmpty && needle.isPrefixOf (c :: rest) then
      repl ++ replaceSub needle repl (rest.drop (needle.length - 1))
    else
      c :: replaceSub needle repl rest
termination_by l => l.length
decreasing_by
  · simp only [List.length_drop, List.length_cons]
    omega
  · simp only [List.length_cons]
    omega

/-- Python `s.replace(pattern, repl)` for a non-empty pattern. -/
def pyReplace (s pattern repl : String) : String :=
  ⟨replaceSub pattern.data repl.data s.data⟩

/-- The suffix of `hay` after the last (left-to-right, non-overlapping)
occurrence of `needle`; the whole list when there is no occurrence.  This is
Python `hay.split(needle)[-1]` for a non-empty needle. -/
def afterLastSub (needle : List Char) : List Char → List Char
  | [] => []
  | c :: rest =>
    if !needle.isEmpty && needle.isPrefixOf (c :: rest) then
      afterLastSub needle (rest.drop (needle.length - 1))
    else if containsSub needle rest then
      afterLastSub needle rest
    else
      c :: rest
termination_by l => l.length
decreasing_by
  · simp only [List.length_drop, List.length_cons]
    omega
  · simp only [List.length_cons]
    omega

/-- Python `s.split(sep)[-1]`. -/
def pySplitLast (s sep : String) : String :=
  ⟨afterLastSub sep.data s.data⟩

/-- One outbound websocket message of `web_interface/main.py`, tagged by its
`type` field. -/
inductive OutMsg where
  | step (text : String)
  | route_decision (text : String)
  | final_result (text : String)
  | clarification_needed (text : String)
  | error_out (text : String)
deriving DecidableEq, Repr

/-- Whether an outbound message is one of the three terminal outcome kinds
(`final_result`, `clarification_needed`, `error`). -/
def OutMsg.isTerminal : OutMsg → Bool
  | .final_result _ => true
  | .clarification_needed _ => true
  | .error_out _ => true
  | _ => false

/-- The message-filtering body of the monitor loop in
`process_request_with_streaming` (`web_interface/main.py` lines 1021-1055):
given one captured print line, decide what (if anything) is forwarded to the
client, threading the `route_sent` flag. -/
def monitor_forward (route_sent : Bool) (message : String) : Option OutMsg × Bool :=
  if strContains message "🧠 Claude thinking:" then
    (some (.step (pyReplace message "🧠 Claude thinking: " "🧠 ")), route_sent)
  else if strContains message "🤖 Claude:" then
    (some (.step (pyReplace message "🤖 Claude: " "🤖 ")), route_sent)
  else if strContains message "📄 Writing file:" then
    (some (.step "📄 Creating file..."), route_sent)
  else if strContains message "✅ File created successfully" then
    (some (.step "✅ File created successfully"), route_sent)
  else if strContains message "📋 Updating todo list" then
    (some (.step "📋 Updating progress..."), route_sent)
  else if strContains message "⚡ ACTION:" then
    (some (.step (pyReplace message "⚡ ACTION: " "")), route_sent)
  else if strContains message "💭" &&
      (["Starting", "Executing", "Processing", "Completed"].any
        fun k => strContains message k) then
    let clean_msg := pyStrip (pyReplace message "💭 " "")
    (if clean_msg != "" then some (.step clean_msg) else none, route_sent)
  else if strContains message "Route decision:" then
    let route := pyStrip (pySplitLast message "Route decision:")
    if route_sent then (none, route_sent) else (some (.route_decision route), true)
  else if strContains message "✅ RESULT:" then
    (some (.step (pyReplace message "✅ RESULT: " "")), route_sent)
  else
    (none, route_sent)

/-- The monitor loop drains the step queue in FIFO order, forwarding each
captured line through `monitor_forward` (the per-iteration cap of 5 messages
and the 300 ms poll only batch the drain; they do not change which messages
are forwarded or their order).  Time-driven keep-alive heartbeats are not
modelled. -/
def drain_queue : Bool → List String → List OutMsg
  | _, [] => []
  | route_sent, m :: ms =>
    match monitor_forward route_sent m with
    | (some out, rs) => out :: drain_queue rs ms
    | (none, rs) => drain_queue rs ms

/-- The `clarification_indicators` test of `process_request_with_streaming`
(lines 1075-1082).  The `"clarification_question" in result` indicator is
omitted: `process_request` never produces that key. -/
def clarification_detected (final_result : String) : Bool :=
  strStartsWith final_result "I need more information:" ||
  (strContains final_result "Could you please" && strContains final_result "?") ||
  (strContains final_result "What kind of" && strContains final_result "?") ||
  (strContains (pyLower final_result) "more details" && strContains final_result "?") ||
  (strContains (pyLower final_result) "please provide" && strContains final_result "?")

/-- Lines 1084-1089: when the indicators fire, the wrapper adds a
`clarification_question` entry derived from `final_result`. -/
def enrich_clarification (final_result : String) : Option String :=
  if clarification_detected final_result then
    some (if strStartsWith final_result "I need more information:" then
      pyReplace final_result "I need more information: " ""
    else final_result)
  else none

/-- The `is_clarification` test in `websocket_endpoint` (lines 906-913);
an absent or empty `clarification_question` is falsy. -/
def is_clarification (clarification_question : Option String)
    (final_result : String) : Bool :=
  (match clarification_question with | some q => q != "" | none => false) ||
  strStartsWith final_result "I need more information:" ||
  (strContains final_result "Could you please" && strContains final_result "?") ||
  (strContains final_result "What kind of" && strContains final_result "?") ||
  (strContains (pyLower final_result) "more details" && strContains final_result "?")

/-- The clarification text extraction of lines 916-922. -/
def clarification_text (clarification_question : Option String)
    (final_result : String) : String :=
  match clarification_question with
  | some q =>
    if q != "" then q
    else if strStartsWith final_result "I need more information:" then
      pyReplace final_result "I need more information: " ""
    else final_result
  | none =>
    if strStartsWith final_result "I need more information:" then
      pyReplace final_result "I need more information: " ""
    else final_result

/-- The single terminal outcome message `websocket_endpoint` sends for one
run (lines 893-942): `clarification_needed` or `final_result` on success,
`error` on failure. -/
def terminal_message (r : ProcessResult) : OutMsg :=
  match r with
  | .err e _ _ _ => .error_out e
  | .ok fr _ _ _ _ _ _ =>
    let cq := enrich_clarification fr
    if is_clarification cq fr then .clarification_needed (clarification_text cq fr)
    else .final_result fr

/-- The full outbound message sequence one run produces, in send order:
the initial `processing_update` (line 870), the drained step messages, the
`"Processing completed!"` step (line 1071), the `route_decision` send of
lines 876-881, the second `route_decision` send of lines 894-900 (success
only), and finally the terminal outcome message. -/
def ws_deliver (produced : List String) (r : ProcessResult) : List OutMsg :=
  [.step "Starting to process your request..."]
  ++ drain_queue false produced
  ++ [.step "Processing completed!"]
  ++ (if r.route_taken != "" then [.route_decision r.route_taken] else [])
  ++ (match r with
      | .ok _ rt _ _ _ _ _ => if rt != "" then [.route_decision rt] else []
      | .err _ _ _ _ => [])
  ++ [terminal_message r]

/-! ### Basic facts about the engine nodes -/

theorem add_step_error_message (st : AgentState) (s : String) :
    (add_step st s).error_message = st.error_message := rfl

theorem add_conversation_error_message (st : AgentState) (r m : String) :
    (add_conversation st r m).error_message = st.error_message := rfl

theorem clarify_loop_error_message (a u f : String) (st : AgentState) :
    (clarify_loop a u f st).error_message = st.error_message := by
  simp only [clarify_loop, add_step, add_conversation]
  repeat' split
  all_goals rfl

theorem route_prompt_error_message (reply : String) (st : AgentState) :
    (route_prompt reply st).error_message = st.error_message := by
  simp only [route_prompt, add_step]
  repeat' split
  all_goals rfl

theorem route_prompt_route (reply : String) (st : AgentState) :
    (route_prompt reply st).route =
      some (if strContains (pyUpper (pyStrip reply)) "CLARIFY" then RouteType.clarify
        else if strContains (pyUpper (pyStrip reply)) "CODE" then RouteType.code
        else if strContains (pyUpper (pyStrip reply)) "ANSWER" then RouteType.answer
        else RouteType.clarify) := by
  simp only [route_prompt, add_step]
  repeat' split
  all_goals rfl

theorem clarify_loop_questions_length (a u f : String) (st : AgentState) :
    (clarify_loop a u f st).clarification_questions.length ≤
      st.clarification_questions.length + 1 := by
  simp only [clarify_loop, add_step, add_conversation]
  repeat' split
  all_goals simp

theorem clarify_loop_not_clarified (a u f : String) (st : AgentState)
    (h : (clarify_loop a u f st).clarified = false) :
    st.clarification_questions.length = 0 ∧
      (clarify_loop a u f st).clarification_questions.length = 1 := by
  simp only [clarify_loop, add_step, add_conversation] at h ⊢
  repeat' split at h
  all_goals simp_all

theorem run_clarify_phase_clarified (r1 r2 : ClarifyRound) (st : AgentState) :
    (run_clarify_phase r1 r2 st).clarified = true := by
  simp only [run_clarify_phase]
  by_cases hc : (clarify_loop r1.analysis r1.response r1.follow_up st).clarified = true
  · simp [hc]
  · have hc' : (clarify_loop r1.analysis r1.response r1.follow_up st).clarified = false := by
      simpa using hc
    have h2 := clarify_loop_not_clarified r1.analysis r1.response r1.follow_up st hc'
    rw [if_neg hc]
    by_cases hd : (clarify_loop r2.analysis r2.response r2.follow_up
        (clarify_loop r1.analysis r1.response r1.follow_up st)).clarified = true
    · exact hd
    · have hd' : (clarify_loop r2.analysis r2.response r2.follow_up
          (clarify_loop r1.analysis r1.response r1.follow_up st)).clarified = false := by
        simpa using hd
      have h3 := clarify_loop_not_clarified r2.analysis r2.response r2.follow_up
        (clarify_loop r1.analysis r1.response r1.follow_up st) hd'
      omega

theorem run_clarify_phase_questions_length (r1 r2 : ClarifyRound) (st : AgentState) :
    (run_clarify_phase r1 r2 st).clarification_questions.length ≤
      st.clarification_questions.length + 2 := by
  simp only [run_clarify_phase]
  have a1 := clarify_loop_questions_length r1.analysis r1.response r1.follow_up st
  have a2 := clarify_loop_questions_length r2.analysis r2.response r2.follow_up
    (clarify_loop r1.analysis r1.response r1.follow_up st)
  split
  · omega
  · omega

theorem run_clarify_phase_error_message (r1 r2 : ClarifyRound) (st : AgentState) :
    (run_clarify_phase r1 r2 st).error_message = st.error_message := by
  simp only [run_clarify_phase]
  split
  · exact clarify_loop_error_message _ _ _ _
  · rw [clarify_loop_error_message, clarify_loop_error_message]

theorem placeholder_result_ne_empty (refined : String) :
    placeholder_result refined ≠ "" := by
  intro h
  have h2 := congrArg String.length h
  rw [placeholder_result, String.length_append, String.length_append] at h2
  have hi : 0 < placeholder_intro.length := by decide
  have he : ("" : String).length = 0 := by decide
  omega

theorem run_claude_code_refine_final (reply : String) (st : AgentState) :
    (run_claude_code (refine_prompt reply st)).final_result =
      placeholder_result (pyStrip reply) := rfl

theorem answer_with_llm_final (reply : String) (st : AgentState) :
    (answer_with_llm reply st).final_result = pyStrip reply := rfl

theorem run_claude_code_error_message (st : AgentState) :
    (run_claude_code st).error_message = st.error_message := rfl

theorem refine_prompt_error_message (reply : String) (st : AgentState) :
    (refine_prompt reply st).error_message = st.error_message := rfl

theorem answer_with_llm_error_message (reply : String) (st : AgentState) :
    (answer_with_llm reply st).error_message = st.error_message := rfl

/-- The engine's terminal `final_result`: the stripped answer reply on the
Answer route, the placeholder text built from the stripped refine reply on
every other route. -/
theorem run_engine_final_result (o : Oracle) (user_input : String)
    (memory : List (String × String)) :
    (run_engine o user_input memory).final_result =
      if strContains (pyUpper (pyStrip o.route_reply)) "CLARIFY" = false ∧
          strContains (pyUpper (pyStrip o.route_reply)) "CODE" = false ∧
          strContains (pyUpper (pyStrip o.route_reply)) "ANSWER" = true then
        pyStrip o.answer_reply
      else
        placeholder_result (pyStrip o.refine_reply) := by
  simp only [run_engine]
  rw [route_prompt_route]
  by_cases h1 : strContains (pyUpper (pyStrip o.route_reply)) "CLARIFY" = true
  · simp [h1, run_claude_code_refine_final]
  · by_cases h2 : strContains (pyUpper (pyStrip o.route_reply)) "CODE" = true
    · simp [h1, h2, run_claude_code_refine_final]
    · by_cases h3 : strContains (pyUpper (pyStrip o.route_reply)) "ANSWER" = true
      · simp [h1, h2, h3, answer_with_llm_final]
      · simp [h1, h2, h3, run_claude_code_refine_final]

theorem run_claude_code_refine_questions (reply : String) (st : AgentState) :
    (run_claude_code (refine_prompt reply st)).clarification_questions =
      st.clarification_questions := rfl

theorem answer_with_llm_questions (reply : String) (st : AgentState) :
    (answer_with_llm reply st).clarification_questions =
      st.clarification_questions := rfl

theorem initial_request_state_questions (user_input : String)
    (memory : List (String × String)) :
    (initial_request_state user_input memory).clarification_questions = [] := rfl

theorem initial_request_state_error_message (user_input : String)
    (memory : List (String × String)) :
    (initial_request_state user_input memory).error_message = "" := rfl

theorem run_engine_error_message (o : Oracle) (user_input : String)
    (memory : List (String × String)) :
    (run_engine o user_input memory).error_message = "" := by
  simp only [run_engine]
  rw [route_prompt_route]
  by_cases h1 : strContains (pyUpper (pyStrip o.route_reply)) "CLARIFY" = true
  · simp [h1, run_claude_code_error_message, refine_prompt_error_message,
      run_clarify_phase_error_message, route_prompt_error_message,
      initial_request_state_error_message]
  · by_cases h2 : strContains (pyUpper (pyStrip o.route_reply)) "CODE" = true
    · simp [h1, h2, run_claude_code_error_message, refine_prompt_error_message,
        route_prompt_error_message, initial_request_state_error_message]
    · by_cases h3 : strContains (pyUpper (pyStrip o.route_reply)) "ANSWER" = true
      · simp [h1, h2, h3, answer_with_llm_error_message, route_prompt_error_message,
          initial_request_state_error_message]
      · simp [h1, h2, h3, run_claude_code_error_message, refine_prompt_error_message,
          run_clarify_phase_error_message, route_prompt_error_message,
          initial_request_state_error_message]

theorem route_prompt_questions (reply : String) (st : AgentState) :
    (route_prompt reply st).clarification_questions = st.clarification_questions := by
  simp only [route_prompt, add_step]
  repeat' split
  all_goals rfl

theorem run_engine_questions_length (o : Oracle) (user_input : String)
    (memory : List (String × String)) :
    (run_engine o user_input memory).clarification_questions.length ≤ 2 := by
  have hz : (route_prompt o.route_reply
      (initial_request_state user_input memory)).clarification_questions = [] := by
    rw [route_prompt_questions, initial_request_state_questions]
  have hb := run_clarify_phase_questions_length o.round1 o.round2
    (route_prompt o.route_reply (initial_request_state user_input memory))
  rw [hz] at hb
  simp only [List.length_nil, Nat.zero_add] at hb
  simp only [run_engine]
  rw [route_prompt_route]
  by_cases h1 : strContains (pyUpper (pyStrip o.route_reply)) "CLARIFY" = true
  · simpa [h1, run_claude_code_refine_questions] using hb
  · by_cases h2 : strContains (pyUpper (pyStrip o.route_reply)) "CODE" = true
    · simp [h1, h2, run_claude_code_refine_questions, route_prompt_questions,
        initial_request_state_questions]
    · by_cases h3 : strContains (pyUpper (pyStrip o.route_reply)) "ANSWER" = true
      · simp [h1, h2, h3, answer_with_llm_questions, route_prompt_questions,
          initial_request_state_questions]
      · simpa [h1, h2, h3, run_claude_code_refine_questions] using hb

/-! ### Claim C1 -/

/-- C1 (counterexample): the claim says that for every request processed to
Terminal exactly one of `final_result`/`error_message` is non-empty.  On the
Answer route with an empty completion reply the terminal state has both
fields empty: `final_result` is the stripped empty reply and `error_message`
is never written by any node. -/
theorem c1_counterexample :
    ((process_request none
        ⟨"ANSWER", ⟨"", "", ""⟩, ⟨"", "", ""⟩, "", ""⟩ "hi" []).final_result = "" ∧
      (process_request none
        ⟨"ANSWER", ⟨"", "", ""⟩, ⟨"", "", ""⟩, "", ""⟩ "hi" []).error_message = "") ∧
    ¬(((process_request none
          ⟨"ANSWER", ⟨"", "", ""⟩, ⟨"", "", ""⟩, "", ""⟩ "hi" []).final_result ≠ "" ∧
        (process_request none
          ⟨"ANSWER", ⟨"", "", ""⟩, ⟨"", "", ""⟩, "", ""⟩ "hi" []).error_message = "") ∨
      ((process_request none
          ⟨"ANSWER", ⟨"", "", ""⟩, ⟨"", "", ""⟩, "", ""⟩ "hi" []).final_result = "" ∧
        (process_request none
          ⟨"ANSWER", ⟨"", "", ""⟩, ⟨"", "", ""⟩, "", ""⟩ "hi" []).error_message ≠ "")) := by
  decide

/-- C1 (amended): on every success-path terminal state `error_message` is
empty (so "both non-empty" never occurs), and `final_result` is non-empty —
hence exactly one of the two is non-empty — whenever the route is Clarify or
Code (where the non-empty placeholder text is stored), or the route is Answer
and the stripped completion reply is non-empty.  A run that raises reports
the exception text under the separate `error` key instead (see C10). -/
theorem c1_exclusive_terminal_amended (o : Oracle) (user_input : String)
    (memory : List (String × String))
    (h : strContains (pyUpper (pyStrip o.route_reply)) "CLARIFY" = true ∨
      strContains (pyUpper (pyStrip o.route_reply)) "CODE" = true ∨
      strContains (pyUpper (pyStrip o.route_reply)) "ANSWER" = false ∨
      pyStrip o.answer_reply ≠ "") :
    (process_request none o user_input memory).final_result ≠ "" ∧
    (process_request none o user_input memory).error_message = "" := by
  have hf : (process_request none o user_input memory).final_result =
      (run_engine o user_input memory).final_result := rfl
  have he : (process_request none o user_input memory).error_message =
      (run_engine o user_input memory).error_message := rfl
  constructor
  · rw [hf, run_engine_final_result]
    split
    · rename_i hcond
      obtain ⟨hA, hB, hC⟩ := hcond
      rcases h with h | h | h | h
      · rw [h] at hA; simp at hA
      · rw [h] at hB; simp at hB
      · rw [hC] at h; simp at h
      · exact h
    · exact placeholder_result_ne_empty _
  · rw [he, run_engine_error_message]

/-- C1 witness: the amended theorem applied to a concrete Answer-route run
with a non-empty answer reply. -/
theorem c1_witness :
    (process_request none
      ⟨"ANSWER", ⟨"", "", ""⟩, ⟨"", "", ""⟩, "", "42"⟩ "hi" []).final_result ≠ "" ∧
    (process_request none
      ⟨"ANSWER", ⟨"", "", ""⟩, ⟨"", "", ""⟩, "", "42"⟩ "hi" []).error_message = "" :=
  c1_exclusive_terminal_amended
    ⟨"ANSWER", ⟨"", "", ""⟩, ⟨"", "", ""⟩, "", "42"⟩ "hi" [] (by decide)

/-! ### Claim C2 -/

/-- C2 (counterexample): the claim says that when the bound is reached
`refined_prompt` becomes the concatenation of the original input and the last
user response.  In a two-round run with original input `"U"` and responses
`"r1"`, `"r2"`, the forced `refined_prompt` is `"U - r1 - r2 - r2"`: line 438
concatenates the *already updated* `user_input` (which ends with the last
response, appended at line 386) with the last response again, so the result is
not `"U - r2"` (original plus last response), nor `"Ur2"`, nor even
`"U - r1 - r2"` (updated input alone) — the last response appears twice. -/
theorem c2_counterexample :
    ((run_clarify_phase ⟨"QUESTION: q1", "r1", "KEEP GOING"⟩
        ⟨"QUESTION: q2", "r2", "KEEP GOING"⟩ (create_agent_state "U")).clarified = true ∧
      (run_clarify_phase ⟨"QUESTION: q1", "r1", "KEEP GOING"⟩
        ⟨"QUESTION: q2", "r2", "KEEP GOING"⟩
        (create_agent_state "U")).refined_prompt = "U - r1 - r2 - r2") ∧
    (run_clarify_phase ⟨"QUESTION: q1", "r1", "KEEP GOING"⟩
      ⟨"QUESTION: q2", "r2", "KEEP GOING"⟩
      (create_agent_state "U")).refined_prompt ≠ "U - r2" ∧
    (run_clarify_phase ⟨"QUESTION: q1", "r1", "KEEP GOING"⟩
      ⟨"QUESTION: q2", "r2", "KEEP GOING"⟩
      (create_agent_state "U")).refined_prompt ≠ "Ur2" ∧
    (run_clarify_phase ⟨"QUESTION: q1", "r1", "KEEP GOING"⟩
      ⟨"QUESTION: q2", "r2", "KEEP GOING"⟩
      (create_agent_state "U")).refined_prompt ≠ "U - r1 - r2" := by
  decide

/-- C2 (amended): for every request the number of clarification questions
asked never exceeds 2; and when a follow-up reply is still unresolved after
the bound is reached (second question asked, non-empty user response,
follow-up reply not resolved), `clarify_loop` forces `clarified := true` and
sets `refined_prompt` to the already-updated `user_input` (which ends with the
last response) concatenated with `" - "` and the last stripped response once
more — so the last response appears twice. -/
theorem c2_bound_and_forced_amended (o : Oracle) (user_input : String)
    (memory : List (String × String)) (a u f : String) (st : AgentState)
    (h1 : strStartsWith a "CLARIFIED:" = false)
    (h2 : strStartsWith a "QUESTION:" = true)
    (h3 : pyStrip u ≠ "")
    (h4 : strStartsWith f "CLARIFIED:" = false)
    (h5 : st.clarification_questions.length = 1) :
    (run_engine o user_input memory).clarification_questions.length ≤ 2 ∧
    (clarify_loop a u f st).clarified = true ∧
    (clarify_loop a u f st).refined_prompt =
      (st.user_input ++ " - " ++ pyStrip u) ++ " - " ++ pyStrip u := by
  refine ⟨run_engine_questions_length o user_input memory, ?_⟩
  simp only [clarify_loop, add_step, add_conversation, h1, h2, h3, h4]
  simp [h3, h5]

/-- C2 witness: the amended theorem applied at a concrete state with one
question already asked and a still-unresolved follow-up. -/
theorem c2_witness :
    (run_engine ⟨"CODE", ⟨"", "", ""⟩, ⟨"", "", ""⟩, "task", ""⟩ "hello" []).clarification_questions.length ≤ 2 ∧
    (clarify_loop "QUESTION: q2" "r2" "KEEP GOING"
      { create_agent_state "U - r1" with clarification_questions := ["q1"] }).clarified = true ∧
    (clarify_loop "QUESTION: q2" "r2" "KEEP GOING"
      { create_agent_state "U - r1" with clarification_questions := ["q1"] }).refined_prompt =
      ("U - r1" ++ " - " ++ pyStrip "r2") ++ " - " ++ pyStrip "r2" :=
  c2_bound_and_forced_amended ⟨"CODE", ⟨"", "", ""⟩, ⟨"", "", ""⟩, "task", ""⟩ "hello" []
    "QUESTION: q2" "r2" "KEEP GOING"
    { create_agent_state "U - r1" with clarification_questions := ["q1"] }
    (by decide) (by decide) (by decide) (by decide) (by decide)

/-! ### Claim C3 -/

/-- C3: `route_prompt` maps every completion reply to exactly one route by
case-insensitive substring match (the reply is upper-cased before the three
category names are tested, CLARIFY first, then CODE, then ANSWER), and a reply
containing none of the three names yields route Clarify plus the fallback
note in the processing-steps log. -/
theorem c3_route_classification (reply : String) (st : AgentState) :
    ((route_prompt reply st).route =
      some (if strContains (pyUpper (pyStrip reply)) "CLARIFY" then RouteType.clarify
        else if strContains (pyUpper (pyStrip reply)) "CODE" then RouteType.code
        else if strContains (pyUpper (pyStrip reply)) "ANSWER" then RouteType.answer
        else RouteType.clarify)) ∧
    (strContains (pyUpper (pyStrip reply)) "CLARIFY" = false →
      strContains (pyUpper (pyStrip reply)) "CODE" = false →
      strContains (pyUpper (pyStrip reply)) "ANSWER" = false →
      (route_prompt reply st).route = some RouteType.clarify ∧
        "Routing fallback - defaulting to CLARIFY" ∈
          (route_prompt reply st).processing_steps) := by
  refine ⟨route_prompt_route reply st, fun hA hB hC => ⟨?_, ?_⟩⟩
  · rw [route_prompt_route, hA, hB, hC]
    rfl
  · simp only [route_prompt, add_step]
    simp [hA, hB, hC]

/-- C3 witness: a reply matching none of the category names defaults to
Clarify and records the fallback note. -/
theorem c3_witness :
    (route_prompt "gibberish" (create_agent_state "x")).route = some RouteType.clarify ∧
    "Routing fallback - defaulting to CLARIFY" ∈
      (route_prompt "gibberish" (create_agent_state "x")).processing_steps :=
  (c3_route_classification "gibberish" (create_agent_state "x")).2
    (by decide) (by decide) (by decide)

/-! ### Claim C5 -/

/-- C5: a completion reply beginning with the resolved marker `"CLARIFIED:"`
ends the clarification loop for the request: `clarified` becomes true (so the
graph's conditional edge leaves `clarify_loop`) and the remainder of the reply
after the 10-character marker, stripped of surrounding whitespace, becomes
`refined_prompt`. -/
theorem c5_clarified_marker (a u f : String) (st : AgentState)
    (h : strStartsWith a "CLARIFIED:" = true) :
    (clarify_loop a u f st).clarified = true ∧
    (clarify_loop a u f st).refined_prompt = pyStrip (pyDrop a 10) := by
  simp only [clarify_loop, add_step, add_conversation, h]
  simp

/-- C5 witness: the theorem applied to a concrete resolved reply. -/
theorem c5_witness :
    (clarify_loop "CLARIFIED: an inventory web app" "" "" (create_agent_state "x")).clarified = true ∧
    (clarify_loop "CLARIFIED: an inventory web app" "" "" (create_agent_state "x")).refined_prompt =
      pyStrip (pyDrop "CLARIFIED: an inventory web app" 10) :=
  c5_clarified_marker "CLARIFIED: an inventory web app" "" "" (create_agent_state "x") (by decide)

/-! ### Claim C6 -/

/-- C6: the completion gateway never raises: modelled as a total function
into `String`, `call_gpt4o` returns the stripped reply on success and the
textual message `"Error calling GPT-4o: " ++ e` for every failing external
call outcome, so its callers need no exception-handling path. -/
theorem c6_gateway_total (external : Except String String) :
    call_gpt4o external =
      (match external with
      | Except.ok content => pyStrip content
      | Except.error e => "Error calling GPT-4o: " ++ e) := by
  cases external <;> rfl

/-! ### Claim C8 -/

/-- C8: routing is deterministic in the external reply: the `route` computed
by `route_prompt` depends only on the classification text, not on any other
part of the state, so identical replies always produce identical routes. -/
theorem c8_route_deterministic (reply : String) (s t : AgentState) :
    (route_prompt reply s).route = (route_prompt reply t).route := by
  rw [route_prompt_route, route_prompt_route]

/-! ### Claim C9 -/

theorem error_reply_no_marker (e : String) :
    strStartsWith ("Error calling GPT-4o: " ++ e) "CLARIFIED:" = false ∧
    strStartsWith ("Error calling GPT-4o: " ++ e) "QUESTION:" = false := by
  constructor <;>
  · simp only [strStartsWith, String.data_append]
    rfl

/-- C9: a completion reply that begins with neither `"CLARIFIED:"` nor
`"QUESTION:"` — in particular every textual error message the gateway
produces on failure, which begins with `"Error calling GPT-4o: "` — takes the
fallback branch of `clarify_loop`: `clarified` is forced to true (so the loop
exits) and `refined_prompt` becomes the current `user_input`. -/
theorem c9_clarify_fallback (a u f : String) (st : AgentState)
    (h1 : strStartsWith a "CLARIFIED:" = false)
    (h2 : strStartsWith a "QUESTION:" = false) :
    ((clarify_loop a u f st).clarified = true ∧
      (clarify_loop a u f st).refined_prompt = st.user_input) ∧
    ∀ e : String,
      strStartsWith (call_gpt4o (Except.error e)) "CLARIFIED:" = false ∧
      strStartsWith (call_gpt4o (Except.error e)) "QUESTION:" = false := by
  constructor
  · simp only [clarify_loop, add_step, add_conversation, h1, h2]
    simp
  · intro e
    exact error_reply_no_marker e

/-- C9 witness: the theorem applied to a concrete gateway error reply. -/
theorem c9_witness :
    ((clarify_loop "Error calling GPT-4o: timeout" "" "" (create_agent_state "build me a thing")).clarified = true ∧
      (clarify_loop "Error calling GPT-4o: timeout" "" "" (create_agent_state "build me a thing")).refined_prompt =
        (create_agent_state "build me a thing").user_input) ∧
    ∀ e : String,
      strStartsWith (call_gpt4o (Except.error e)) "CLARIFIED:" = false ∧
      strStartsWith (call_gpt4o (Except.error e)) "QUESTION:" = false :=
  c9_clarify_fallback "Error calling GPT-4o: timeout" "" ""
    (create_agent_state "build me a thing") (by decide) (by decide)

/-! ### Claim C10 -/

/-- C10: `process_request` never propagates an exception: it is a total
function into `ProcessResult`, and for every exception text `e` raised during
graph execution it returns the dictionary with `success = False`, the
exception text under `error`, an empty `final_result`, `route_taken` equal to
`"error"`, and the single step `"Error occurred during processing"`. -/
theorem c10_process_request_error_dict (e : String) (o : Oracle)
    (user_input : String) (memory : List (String × String)) :
    process_request (some e) o user_input memory =
      ProcessResult.err e "" "error" ["Error occurred during processing"] ∧
    (process_request (some e) o user_input memory).success = false ∧
    (process_request (some e) o user_input memory).error = some e ∧
    (process_request (some e) o user_input memory).final_result = "" ∧
    (process_request (some e) o user_input memory).route_taken = "error" :=
  ⟨rfl, rfl, rfl, rfl, rfl⟩

/-! ### Claim C7 -/

/-- C7: `remove_session` is idempotent — removing the same session id twice
leaves both the `sessions` map and the `active_connections` map exactly as
removing it once — and removing an id that is present in neither map changes
nothing (Python's `dict.pop(key, None)` never raises). -/
theorem c7_remove_session_idempotent {A C : Type} (m : SessionManagerState A C)
    (session_id : String) :
    remove_session (remove_session m session_id) session_id =
      remove_session m session_id ∧
    ((∀ p ∈ m.sessions, p.1 ≠ session_id) →
      (∀ p ∈ m.active_connections, p.1 ≠ session_id) →
      remove_session m session_id = m) := by
  constructor
  · simp [remove_session, List.filter_filter]
  · intro h1 h2
    obtain ⟨s, ac⟩ := m
    simp only [remove_session, SessionManagerState.mk.injEq]
    constructor
    · apply List.filter_eq_self.mpr
      intro p hp
      simpa using h1 p hp
    · apply List.filter_eq_self.mpr
      intro p hp
      simpa using h2 p hp

/-- C7 witness: the theorem applied to a concrete manager state and an absent
session id. -/
theorem c7_witness :
    (remove_session (remove_session
        (⟨[("a", 1)], [("a", 2)]⟩ : SessionManagerState Nat Nat) "b") "b" =
      remove_session (⟨[("a", 1)], [("a", 2)]⟩ : SessionManagerState Nat Nat) "b") ∧
    remove_session (⟨[("a", 1)], [("a", 2)]⟩ : SessionManagerState Nat Nat) "b" =
      (⟨[("a", 1)], [("a", 2)]⟩ : SessionManagerState Nat Nat) :=
  ⟨(c7_remove_session_idempotent ⟨[("a", 1)], [("a", 2)]⟩ "b").1,
    (c7_remove_session_idempotent ⟨[("a", 1)], [("a", 2)]⟩ "b").2
      (by decide) (by decide)⟩

/-! ### Claim C4 -/

theorem monitor_forward_not_terminal (rs : Bool) (m : String) (out : OutMsg)
    (rs' : Bool) (h : monitor_forward rs m = (some out, rs')) :
    out.isTerminal = false := by
  simp only [monitor_forward] at h
  repeat' split at h
  all_goals injection h with hfst hsnd
  all_goals first
    | (injection hfst with hv
       rw [← hv]
       rfl)
    | injection hfst

theorem drain_queue_no_terminal (rs : Bool) (ms : List String) :
    ∀ x ∈ drain_queue rs ms, x.isTerminal = false := by
  induction ms generalizing rs with
  | nil => simp [drain_queue]
  | cons m ms ih =>
    intro x hx
    simp only [drain_queue] at hx
    rcases hmf : monitor_forward rs m with ⟨o, rs'⟩
    rw [hmf] at hx
    cases o with
    | none => exact ih rs' x hx
    | some out =>
      simp only [List.mem_cons] at hx
      rcases hx with rfl | hx
      · exact monitor_forward_not_terminal rs m x rs' hmf
      · exact ih rs' x hx

theorem isTerminal_step (t : String) : (OutMsg.step t).isTerminal = false := rfl

theorem isTerminal_route_decision (t : String) :
    (OutMsg.route_decision t).isTerminal = false := rfl

theorem terminal_message_isTerminal (r : ProcessResult) :
    (terminal_message r).isTerminal = true := by
  cases r with
  | err e fr rt ps => rfl
  | ok fr rt c rp ps ch em =>
    simp only [terminal_message]
    split
    · rfl
    · rfl

/-- C4 (counterexample): the claim says no step message produced during a run
is lost.  The engine's own progress lines (for example the
`"   📋 Starting clarification process"` line printed for a processing step)
match none of the monitor's forwarding patterns, so the drain delivers
nothing for them: the delivered sequence is identical to that of a run that
produced no messages at all — the step message is lost. -/
theorem c4_counterexample :
    drain_queue false ["   📋 Starting clarification process"] = [] ∧
    ["   📋 Starting clarification process"] ≠ ([] : List String) ∧
    ws_deliver ["   📋 Starting clarification process"]
        (ProcessResult.ok "done" "answer" true "p" [] [] "") =
      ws_deliver [] (ProcessResult.ok "done" "answer" true "p" [] [] "") := by
  decide

/-- C4 (amended): for every run relayed by the bridge, the terminal outcome
message (`final_result`, `clarification_needed`, or `error`) is delivered
exactly once, and as the final message of the run — after every step message
that is delivered; delivered steps are forwarded in production order by the
single drain pass, but produced messages matching none of the filter patterns
are dropped rather than delivered, so loss of step messages can occur. -/
theorem c4_terminal_once_last_amended (produced : List String) (r : ProcessResult) :
    (ws_deliver produced r).countP (fun x => x.isTerminal) = 1 ∧
    (ws_deliver produced r).getLast? = some (terminal_message r) := by
  constructor
  · have hd : (drain_queue false produced).countP (fun x => x.isTerminal) = 0 := by
      apply List.countP_eq_zero.mpr
      intro a ha
      simp [drain_queue_no_terminal false produced a ha]
    cases r with
    | ok fr rt c rp ps ch em =>
      by_cases hrt : (rt != "") = true
      · simp [ws_deliver, List.countP_append, List.countP_cons, hd, hrt,
          isTerminal_step, isTerminal_route_decision, terminal_message_isTerminal,
          ProcessResult.route_taken]
      · simp [ws_deliver, List.countP_append, List.countP_cons, hd, hrt,
          isTerminal_step, isTerminal_route_decision, terminal_message_isTerminal,
          ProcessResult.route_taken]
    | err e fr rt ps =>
      by_cases hrt : (rt != "") = true
      · simp [ws_deliver, List.countP_append, List.countP_cons, hd, hrt,
          isTerminal_step, isTerminal_route_decision, terminal_message_isTerminal,
          ProcessResult.route_taken]
      · simp [ws_deliver, List.countP_append, List.countP_cons, hd, hrt,
          isTerminal_step, isTerminal_route_decision, terminal_message_isTerminal,
          ProcessResult.route_taken]
  · simp only [ws_deliver]
    rw [List.getLast?_concat]
